import Mathlib

/-!
Verification of the StockVision client-side alert pipeline
(src/assets/js/user_dashboard.js): alert storage, mock price ticker,
threshold evaluation and notification dispatch.

JavaScript numbers are modelled as rationals (ℚ); a `parseFloat` result is
modelled as `Option ℚ` where `none` stands for NaN (unparseable input).
JavaScript truthiness of a number is `≠ 0` (on `some`), of a string is
`≠ ""`, and of `null` (`none`) is false.
-/

namespace StockVision

/-! ## JSON values and a model of the builtin JSON.parse

`getAlerts` calls the platform builtin `JSON.parse`; we model it with an
executable recursive-descent parser over the character list. `JSON.parse`
throws on malformed input, modelled as `Except.error`. -/

inductive Json where
  | null : Json
  | bool (b : Bool) : Json
  | num (v : ℚ) : Json
  | str (s : String) : Json
  | arr (items : List Json) : Json
  | obj (members : List (String × Json)) : Json

def quoteChar : Char := Char.ofNat 34

def backslashChar : Char := Char.ofNat 92

def lbraceChar : Char := Char.ofNat 123

def rbraceChar : Char := Char.ofNat 125

def skipWs : List Char → List Char
  | [] => []
  | c :: cs => if c = ' ' ∨ c = '\t' ∨ c = '\n' ∨ c = '\r' then skipWs cs else c :: cs

/-- Splits the longest leading run of decimal digits from the rest. -/
def takeDigits : List Char → List Char × List Char
  | [] => ([], [])
  | c :: cs =>
    if c.isDigit then
      let r := takeDigits cs
      (c :: r.1, r.2)
    else ([], c :: cs)

def digitsToNat (ds : List Char) : Nat :=
  ds.foldl (fun acc c => acc * 10 + (c.toNat - 48)) 0

/-- Optional fraction part `.ddd` of a JSON number. -/
def parseFrac (cs : List Char) : Except String (ℚ × List Char) :=
  match cs with
  | [] => .ok (0, [])
  | c :: rest =>
    if c = '.' then
      let p := takeDigits rest
      if p.1.isEmpty then .error "invalid number in JSON"
      else .ok ((digitsToNat p.1 : ℚ) / (10 : ℚ) ^ p.1.length, p.2)
    else .ok (0, c :: rest)

/-- Optional exponent part `e±ddd` of a JSON number. -/
def parseExp (cs : List Char) : Except String (Int × List Char) :=
  match cs with
  | [] => .ok (0, [])
  | c :: rest =>
    if c = 'e' ∨ c = 'E' then
      let signed : Bool × List Char :=
        match rest with
        | d :: r2 => if d = '-' then (true, r2) else if d = '+' then (false, r2) else (false, rest)
        | [] => (false, [])
      let p := takeDigits signed.2
      if p.1.isEmpty then .error "invalid number in JSON"
      else .ok (if signed.1 then -(digitsToNat p.1 : Int) else (digitsToNat p.1 : Int), p.2)
    else .ok (0, c :: rest)

def parseNumber (cs : List Char) : Except String (ℚ × List Char) :=
  let start : Bool × List Char :=
    match cs with
    | c :: rest => if c = '-' then (true, rest) else (false, cs)
    | [] => (false, [])
  let p := takeDigits start.2
  if p.1.isEmpty then .error "invalid number in JSON"
  else
    match parseFrac p.2 with
    | .error e => .error e
    | .ok (frac, cs3) =>
      match parseExp cs3 with
      | .error e => .error e
      | .ok (ex, cs4) =>
        let mag : ℚ := ((digitsToNat p.1 : ℚ) + frac) * (10 : ℚ) ^ ex
        .ok (if start.1 then -mag else mag, cs4)

def hexVal (c : Char) : Option Nat :=
  if c.isDigit then some (c.toNat - 48)
  else if 'a' ≤ c ∧ c ≤ 'f' then some (c.toNat - 87)
  else if 'A' ≤ c ∧ c ≤ 'F' then some (c.toNat - 55)
  else none

def unescape (e : Char) : Option Char :=
  if e = quoteChar then some quoteChar
  else if e = backslashChar then some backslashChar
  else if e = '/' then some '/'
  else if e = 'b' then some (Char.ofNat 8)
  else if e = 'f' then some (Char.ofNat 12)
  else if e = 'n' then some '\n'
  else if e = 'r' then some '\r'
  else if e = 't' then some '\t'
  else none

/-- Body of a JSON string, after the opening quote: the decoded characters
and the input remaining after the closing quote. -/
def parseStringBody : List Char → Except String (List Char × List Char)
  | [] => .error "unterminated string in JSON"
  | c :: rest =>
    if c = quoteChar then .ok ([], rest)
    else if c = backslashChar then
      match rest with
      | [] => .error "unterminated string in JSON"
      | e :: rest2 =>
        if e = 'u' then
          match rest2 with
          | h1 :: h2 :: h3 :: h4 :: rest3 =>
            match hexVal h1, hexVal h2, hexVal h3, hexVal h4 with
            | some a, some b, some c2, some d =>
              match parseStringBody rest3 with
              | .error err => .error err
              | .ok (chars, rem) =>
                .ok (Char.ofNat (((a * 16 + b) * 16 + c2) * 16 + d) :: chars, rem)
            | _, _, _, _ => .error "bad unicode escape in JSON"
          | _ => .error "bad unicode escape in JSON"
        else
          match unescape e with
          | some ch =>
            match parseStringBody rest2 with
            | .error err => .error err
            | .ok (chars, rem) => .ok (ch :: chars, rem)
          | none => .error "bad escape in JSON"
    else
      match parseStringBody rest with
      | .error err => .error err
      | .ok (chars, rem) => .ok (c :: chars, rem)

def expectChars : List Char → List Char → Option (List Char)
  | [], cs => some cs
  | _ :: _, [] => none
  | e :: es, c :: cs => if c = e then expectChars es cs else none

mutual

def parseValue : Nat → List Char → Except String (Json × List Char)
  | 0, _ => .error "JSON input too deeply nested"
  | Nat.succ fuel, cs =>
    match skipWs cs with
    | [] => .error "unexpected end of JSON input"
    | c :: rest =>
      if c = 'n' then
        match expectChars ['u', 'l', 'l'] rest with
        | some rem => .ok (Json.null, rem)
        | none => .error "unexpected token in JSON"
      else if c = 't' then
        match expectChars ['r', 'u', 'e'] rest with
        | some rem => .ok (Json.bool true, rem)
        | none => .error "unexpected token in JSON"
      else if c = 'f' then
        match expectChars ['a', 'l', 's', 'e'] rest with
        | some rem => .ok (Json.bool false, rem)
        | none => .error "unexpected token in JSON"
      else if c = quoteChar then
        match parseStringBody rest with
        | .error e => .error e
        | .ok (chars, rem) => .ok (Json.str (String.mk chars), rem)
      else if c = '[' then
        match skipWs rest with
        | ']' :: rem => .ok (Json.arr [], rem)
        | other =>
          match parseArrayRest fuel other with
          | .error e => .error e
          | .ok (items, rem) => .ok (Json.arr items, rem)
      else if c = lbraceChar then
        match skipWs rest with
        | d :: rem =>
          if d = rbraceChar then .ok (Json.obj [], rem)
          else
            match parseObjRest fuel (d :: rem) with
            | .error e => .error e
            | .ok (members, rem2) => .ok (Json.obj members, rem2)
        | [] => .error "unexpected end of JSON input"
      else if c = '-' ∨ c.isDigit then
        match parseNumber (c :: rest) with
        | .error e => .error e
        | .ok (v, rem) => .ok (Json.num v, rem)
      else .error "unexpected token in JSON"

def parseArrayRest : Nat → List Char → Except String (List Json × List Char)
  | 0, _ => .error "JSON input too deeply nested"
  | Nat.succ fuel, cs =>
    match parseValue fuel cs with
    | .error e => .error e
    | .ok (v, rem) =>
      match skipWs rem with
      | ']' :: rem2 => .ok ([v], rem2)
      | ',' :: rem2 =>
        match parseArrayRest fuel rem2 with
        | .error e => .error e
        | .ok (vs, rem3) => .ok (v :: vs, rem3)
      | _ => .error "expected comma or end of array in JSON"

def parseObjRest : Nat → List Char → Except String (List (String × Json) × List Char)
  | 0, _ => .error "JSON input too deeply nested"
  | Nat.succ fuel, cs =>
    match skipWs cs with
    | [] => .error "unexpected end of JSON input"
    | c :: rest =>
      if c = quoteChar then
        match parseStringBody rest with
        | .error e => .error e
        | .ok (keyChars, rem) =>
          match skipWs rem with
          | ':' :: rem2 =>
            match parseValue fuel rem2 with
            | .error e => .error e
            | .ok (v, rem3) =>
              match skipWs rem3 with
              | d :: rem4 =>
                if d = rbraceChar then .ok ([(String.mk keyChars, v)], rem4)
                else if d = ',' then
                  match parseObjRest fuel rem4 with
                  | .error e => .error e
                  | .ok (ms, rem5) => .ok ((String.mk keyChars, v) :: ms, rem5)
                else .error "expected comma or end of object in JSON"
              | [] => .error "unexpected end of JSON input"
          | _ => .error "expected colon in JSON object"
      else .error "expected string key in JSON object"

end

/-- Model of the builtin `JSON.parse`: parse one value, then require only
whitespace to remain. Malformed input yields `Except.error` (a thrown
`SyntaxError` in JavaScript). -/
def jsonParse (s : String) : Except String Json :=
  match parseValue (s.length * 2 + 2) s.data with
  | .error e => .error e
  | .ok (v, rest) =>
    match skipWs rest with
    | [] => .ok v
    | _ => .error "unexpected trailing characters in JSON"

/-- `getAlerts()`: `JSON.parse(localStorage.getItem('stockVisionAlerts') || '[]')`.
`stored` is the raw content of the local-storage key (`none` when unset).
The `|| '[]'` substitutes `'[]'` exactly when the stored value is falsy
(null or the empty string); the parse result — error included — is returned
as is: there is no try/catch around `JSON.parse`. -/
def getAlerts (stored : Option String) : Except String Json :=
  jsonParse (match stored with
    | some s => if s = "" then "[]" else s
    | none => "[]")

/-- True when the call models a thrown exception. -/
def raises (r : Except String Json) : Bool :=
  match r with
  | .error _ => true
  | .ok _ => false

/-! ## Alert store, price simulator and threshold evaluator -/

/-- One persisted alert: `{ symbol, high, low, id }` as built by
`handleAlertSubmit`. Thresholds are `number | null`. -/
structure StockAlert where
  symbol : String
  high : Option ℚ
  low : Option ℚ
  id : Int
deriving DecidableEq

/-- JavaScript truthiness of a `number | null` value (`none` also stands
for NaN): `null`, `0` and NaN are falsy. -/
def numTruthy : Option ℚ → Bool
  | none => false
  | some v => decide (v ≠ 0)

/-- `x || null` on a `number | null` value: keeps `x` when truthy, else `null`. -/
def numOrNull (x : Option ℚ) : Option ℚ :=
  if numTruthy x then x else none

/-- `handleAlertSubmit`: rejects when `!high && !low` (returns `none`,
the early return after the validation alert); otherwise appends
`{ symbol, high: high || null, low: low || null, id }` to the stored
sequence and returns the new sequence that gets persisted. -/
def handleAlertSubmit (symbol : String) (high low : Option ℚ) (id : Int)
    (alerts : List StockAlert) : Option (List StockAlert) :=
  if numTruthy high = false ∧ numTruthy low = false then none
  else some (alerts ++ [{ symbol := symbol, high := numOrNull high, low := numOrNull low, id := id }])

/-- `deleteAlert(id)`: `getAlerts().filter(a => a.id !== id)`, re-persisted. -/
def deleteAlert (id : Int) (alerts : List StockAlert) : List StockAlert :=
  alerts.filter (fun a => a.id != id)

/-- `x || d` on a `number | null` value with a number fallback. -/
def jsNumOr (x : Option ℚ) (d : ℚ) : ℚ :=
  match x with
  | none => d
  | some v => if v ≠ 0 then v else d

/-- Reference price of the mock ticker:
`randomAlert.high || randomAlert.low || 3000`. -/
def basePrice (a : StockAlert) : ℚ :=
  jsNumOr a.high (jsNumOr a.low 3000)

/-- Simulated current price:
`basePrice + (Math.random() - 0.5) * (basePrice * 0.1)` with the random
draw `rand ∈ [0, 1)`. -/
def simulatedPrice (base rand : ℚ) : ℚ :=
  base + (rand - 1/2) * (base * (1/10))

/-- A breach event emitted by `checkAlerts` (the `notifyUser` message
carries the symbol, the breached threshold and the current price). -/
inductive BreachEvent where
  | highBreach (symbol : String) (threshold price : ℚ) : BreachEvent
  | lowBreach (symbol : String) (threshold price : ℚ) : BreachEvent
deriving DecidableEq

/-- `if (alert.high && price > alert.high) notifyUser(...)`. -/
def highEvents (a : StockAlert) (price : ℚ) : List BreachEvent :=
  match a.high with
  | none => []
  | some h => if h ≠ 0 ∧ price > h then [BreachEvent.highBreach a.symbol h price] else []

/-- `if (alert.low && price < alert.low) notifyUser(...)`. -/
def lowEvents (a : StockAlert) (price : ℚ) : List BreachEvent :=
  match a.low with
  | none => []
  | some l => if l ≠ 0 ∧ price < l then [BreachEvent.lowBreach a.symbol l price] else []

/-- Events one alert contributes: the high check, then the low check. -/
def alertEvents (a : StockAlert) (price : ℚ) : List BreachEvent :=
  highEvents a price ++ lowEvents a price

/-- `checkAlerts(symbol, price)`: filter the stored alerts by symbol and
run both threshold checks on each, in order. -/
def checkAlerts (alerts : List StockAlert) (symbol : String) (price : ℚ) : List BreachEvent :=
  (alerts.filter (fun a => a.symbol == symbol)).flatMap (fun a => alertEvents a price)

/-- `checkAlerts` with the stored sequence threaded through as state: the
function only reads `getAlerts()` and never calls `saveAlerts`, so the
stored sequence it leaves behind is the one it read. -/
def checkAlertsRun (alerts : List StockAlert) (symbol : String) (price : ℚ) :
    List StockAlert × List BreachEvent :=
  (alerts, checkAlerts alerts symbol price)

/-! ## Notification dispatcher -/

/-- Observable dispatcher state: the session-storage `lastNotification`
slot, the local notifications shown, the `/api/alert/trigger` request
bodies issued, and the console log. -/
structure NotifyState where
  cache : Option String
  localNotifs : List String
  remoteRequests : List String
  log : List String
deriving DecidableEq

def initialNotifyState : NotifyState :=
  { cache := none, localNotifs := [], remoteRequests := [], log := [] }

/-- The debounce check `lastNotif && lastNotif === message`: string
truthiness (non-null, non-empty) and strict equality. -/
def isDuplicate (cache : Option String) (message : String) : Bool :=
  match cache with
  | none => false
  | some c => decide (c ≠ "") && decide (c = message)

/-- `notifyUser(message)` up to the point the `fetch` is issued: the
duplicate check, the cache write, the local browser notification (when
permission is granted) and the remote trigger request. The 30-second
cache reset scheduled by `setTimeout` is modelled by `expireCache`. -/
def notifyUser (granted : Bool) (message : String) (s : NotifyState) : NotifyState :=
  if isDuplicate s.cache message then s
  else
    { cache := some message
      localNotifs := s.localNotifs ++ (if granted then [message] else [])
      remoteRequests := s.remoteRequests ++ [message]
      log := s.log ++ ["ALERT: " ++ message] }

/-- The `setTimeout(() => sessionStorage.removeItem('lastNotification'), 30000)`
callback: clears the cache slot after the 30-second window. -/
def expireCache (s : NotifyState) : NotifyState :=
  { s with cache := none }

/-- Parsed body of the `/api/alert/trigger` response. -/
structure TriggerResponse where
  success : Bool
  results : Option String
  error : Option String
deriving DecidableEq

/-- The continuation of the `fetch('/api/alert/trigger')` call:
`.then(data => data.success ? console.log(results) : console.warn(error))`
`.catch(err => console.error(err))`. A network error or a failed JSON
body decode lands in the `catch` branch (`Except.error`). Every branch
only appends to the console log. -/
def handleTriggerResponse (resp : Except String TriggerResponse) (s : NotifyState) : NotifyState :=
  match resp with
  | .ok data =>
    if data.success then
      { s with log := s.log ++ ["Backend trigger results"] }
    else
      { s with log := s.log ++ ["Backend trigger failed: " ++ data.error.getD ""] }
  | .error err => { s with log := s.log ++ ["Backend trigger error: " ++ err] }

/-- Store well-formedness: `handleAlertSubmit` normalises a falsy (zero)
threshold to `null`, so a persisted alert never carries a `0` threshold. -/
def storedWF (a : StockAlert) : Prop :=
  a.high ≠ some 0 ∧ a.low ≠ some 0

/-- Store invariant from the spec: at least one threshold is non-null. -/
def alertInv (a : StockAlert) : Prop :=
  a.high ≠ none ∨ a.low ≠ none

/-! ## Helper lemmas -/

theorem mem_highEvents {a : StockAlert} {price : ℚ} {sym : String} {t p : ℚ} :
    BreachEvent.highBreach sym t p ∈ highEvents a price ↔
      a.high = some t ∧ t ≠ 0 ∧ price > t ∧ sym = a.symbol ∧ p = price := by
  unfold highEvents
  cases ha : a.high with
  | none => simp
  | some v =>
    by_cases hc : v ≠ 0 ∧ price > v
    · simp only [if_pos hc, List.mem_singleton, BreachEvent.highBreach.injEq,
        Option.some.injEq]
      constructor
      · rintro ⟨rfl, rfl, rfl⟩
        exact ⟨rfl, hc.1, hc.2, rfl, rfl⟩
      · rintro ⟨rfl, -, -, rfl, rfl⟩
        exact ⟨rfl, rfl, rfl⟩
    · simp only [if_neg hc, List.not_mem_nil, false_iff, Option.some.injEq]
      rintro ⟨rfl, ht0, hpt, -, -⟩
      exact hc ⟨ht0, hpt⟩

theorem mem_lowEvents {a : StockAlert} {price : ℚ} {sym : String} {t p : ℚ} :
    BreachEvent.lowBreach sym t p ∈ lowEvents a price ↔
      a.low = some t ∧ t ≠ 0 ∧ price < t ∧ sym = a.symbol ∧ p = price := by
  unfold lowEvents
  cases ha : a.low with
  | none => simp
  | some v =>
    by_cases hc : v ≠ 0 ∧ price < v
    · simp only [if_pos hc, List.mem_singleton, BreachEvent.lowBreach.injEq,
        Option.some.injEq]
      constructor
      · rintro ⟨rfl, rfl, rfl⟩
        exact ⟨rfl, hc.1, hc.2, rfl, rfl⟩
      · rintro ⟨rfl, -, -, rfl, rfl⟩
        exact ⟨rfl, rfl, rfl⟩
    · simp only [if_neg hc, List.not_mem_nil, false_iff, Option.some.injEq]
      rintro ⟨rfl, ht0, hpt, -, -⟩
      exact hc ⟨ht0, hpt⟩

theorem highBreach_notMem_lowEvents {a : StockAlert} {price : ℚ} {sym : String} {t p : ℚ} :
    BreachEvent.highBreach sym t p ∉ lowEvents a price := by
  unfold lowEvents
  cases a.low with
  | none => simp
  | some v => split <;> simp

theorem lowBreach_notMem_highEvents {a : StockAlert} {price : ℚ} {sym : String} {t p : ℚ} :
    BreachEvent.lowBreach sym t p ∉ highEvents a price := by
  unfold highEvents
  cases a.high with
  | none => simp
  | some v => split <;> simp

theorem mem_checkAlerts_high {alerts : List StockAlert} {symbol sym : String} {t p price : ℚ} :
    BreachEvent.highBreach sym t p ∈ checkAlerts alerts symbol price ↔
      ∃ a ∈ alerts, a.symbol = symbol ∧ sym = symbol ∧ a.high = some t ∧
        t ≠ 0 ∧ price > t ∧ p = price := by
  unfold checkAlerts alertEvents
  simp only [List.mem_flatMap, List.mem_filter, List.mem_append, beq_iff_eq]
  constructor
  · rintro ⟨a, ⟨ha, hsym⟩, hev | hev⟩
    · obtain ⟨hhigh, ht0, hpt, rfl, rfl⟩ := mem_highEvents.mp hev
      exact ⟨a, ha, hsym, hsym, hhigh, ht0, hpt, rfl⟩
    · exact absurd hev highBreach_notMem_lowEvents
  · rintro ⟨a, ha, hsym, rfl, hhigh, ht0, hpt, rfl⟩
    exact ⟨a, ⟨ha, hsym⟩, Or.inl (mem_highEvents.mpr ⟨hhigh, ht0, hpt, hsym.symm, rfl⟩)⟩

theorem mem_checkAlerts_low {alerts : List StockAlert} {symbol sym : String} {t p price : ℚ} :
    BreachEvent.lowBreach sym t p ∈ checkAlerts alerts symbol price ↔
      ∃ a ∈ alerts, a.symbol = symbol ∧ sym = symbol ∧ a.low = some t ∧
        t ≠ 0 ∧ price < t ∧ p = price := by
  unfold checkAlerts alertEvents
  simp only [List.mem_flatMap, List.mem_filter, List.mem_append, beq_iff_eq]
  constructor
  · rintro ⟨a, ⟨ha, hsym⟩, hev | hev⟩
    · exact absurd hev lowBreach_notMem_highEvents
    · obtain ⟨hlow, ht0, hpt, rfl, rfl⟩ := mem_lowEvents.mp hev
      exact ⟨a, ha, hsym, hsym, hlow, ht0, hpt, rfl⟩
  · rintro ⟨a, ha, hsym, rfl, hlow, ht0, hpt, rfl⟩
    exact ⟨a, ⟨ha, hsym⟩, Or.inr (mem_lowEvents.mpr ⟨hlow, ht0, hpt, hsym.symm, rfl⟩)⟩

theorem numTruthy_eq_true {x : Option ℚ} :
    numTruthy x = true ↔ ∃ v, x = some v ∧ v ≠ 0 := by
  cases x with
  | none => simp [numTruthy]
  | some v => simp [numTruthy]

theorem numOrNull_ne_some_zero (x : Option ℚ) : numOrNull x ≠ some 0 := by
  unfold numOrNull
  by_cases h : numTruthy x = true
  · obtain ⟨v, rfl, hv⟩ := numTruthy_eq_true.mp h
    simp [h, hv]
  · simp [h]

theorem numOrNull_of_truthy {x : Option ℚ} (h : numTruthy x = true) :
    numOrNull x = x := by
  simp [numOrNull, h]

theorem numOrNull_ne_none {x : Option ℚ} (h : numTruthy x = true) :
    numOrNull x ≠ none := by
  rw [numOrNull_of_truthy h]
  obtain ⟨v, rfl, -⟩ := numTruthy_eq_true.mp h
  simp

instance (a : StockAlert) : Decidable (storedWF a) :=
  decidable_of_iff (a.high ≠ some 0 ∧ a.low ≠ some 0) Iff.rfl

instance (a : StockAlert) : Decidable (alertInv a) :=
  decidable_of_iff (a.high ≠ none ∨ a.low ≠ none) Iff.rfl

/-! ## Claim theorems -/

/-- C1 (counterexample): the claim says `getAlerts` never propagates a parse
exception and returns the empty sequence on malformed JSON. But
`JSON.parse(localStorage.getItem('stockVisionAlerts') || '[]')` has no
try/catch: when the key holds the malformed document `"x"`, the parse
error propagates to the caller. -/
theorem getAlerts_malformed_raises : raises (getAlerts (some "x")) = true := by rfl

/-- C1 (amended): `getAlerts` returns the empty sequence when the key is
unset (or holds the falsy empty string); for any other stored content the
`JSON.parse` result — a thrown parse error included — is passed through
unchanged to the caller. -/
theorem getAlerts_spec :
    getAlerts none = Except.ok (Json.arr []) ∧
    getAlerts (some "") = Except.ok (Json.arr []) ∧
    ∀ s, s ≠ "" → getAlerts (some s) = jsonParse s := by
  refine ⟨rfl, rfl, fun s hs => ?_⟩
  simp [getAlerts, hs]

/-- Witness for C1: the concrete malformed document `"x"` is non-empty,
`getAlerts` passes the parse outcome through, and that outcome is an error. -/
theorem getAlerts_spec_witness :
    getAlerts (some "x") = jsonParse "x" ∧ raises (jsonParse "x") = true :=
  ⟨getAlerts_spec.2.2 "x" (by decide), by rfl⟩

/-- C4: for a positive reference price `R` and a random draw `r ∈ [0, 1)`,
the simulated price `R + (r - 0.5) * (R * 0.1)` lies in `[0.95R, 1.05R]`. -/
theorem simulatedPrice_bounds (R r : ℚ) (hR : 0 < R) (h0 : 0 ≤ r) (h1 : r < 1) :
    95/100 * R ≤ simulatedPrice R r ∧ simulatedPrice R r ≤ 105/100 * R := by
  unfold simulatedPrice
  constructor <;> nlinarith

/-- Witness for C4 at `R = 100`, `r = 1/2`. -/
theorem simulatedPrice_bounds_witness :
    95/100 * (100 : ℚ) ≤ simulatedPrice 100 (1/2) ∧
      simulatedPrice 100 (1/2) ≤ 105/100 * 100 :=
  simulatedPrice_bounds 100 (1/2) (by norm_num) (by norm_num) (by norm_num)

/-- C5: for a stored alert (the store never persists a `0` threshold, see
`handleAlertSubmit_stores_wf`), the ticker's reference price
`alert.high || alert.low || 3000` is the high when set, else the low when
set, else the default `3000`. -/
theorem basePrice_spec (a : StockAlert) (hwf : storedWF a) :
    (∀ h, a.high = some h → basePrice a = h) ∧
    (a.high = none → ∀ l, a.low = some l → basePrice a = l) ∧
    (a.high = none → a.low = none → basePrice a = 3000) := by
  obtain ⟨hh, hl⟩ := hwf
  refine ⟨?_, ?_, ?_⟩
  · intro h hha
    have hne : h ≠ 0 := fun h0 => hh (h0 ▸ hha)
    simp [basePrice, jsNumOr, hha, hne]
  · intro hha l hla
    have hne : l ≠ 0 := fun h0 => hl (h0 ▸ hla)
    simp [basePrice, jsNumOr, hha, hla, hne]
  · intro hha hla
    simp [basePrice, jsNumOr, hha, hla]

/-- Witness for C5: an alert with only a high of `3000` has reference
price `3000`. -/
theorem basePrice_spec_witness :
    basePrice ⟨"RELIANCE", some 3000, none, 1⟩ = 3000 :=
  (basePrice_spec ⟨"RELIANCE", some 3000, none, 1⟩ (by decide)).1 3000 rfl

/-- C6: a price exactly equal to a threshold fires no breach: every high
breach needs `price > high` and every low breach needs `price < low`, both
strict, so at `price = t` no event carrying threshold `t` is emitted. -/
theorem checkAlerts_strict_thresholds (alerts : List StockAlert) (symbol sym : String) (t : ℚ) :
    BreachEvent.highBreach sym t t ∉ checkAlerts alerts symbol t ∧
    BreachEvent.lowBreach sym t t ∉ checkAlerts alerts symbol t := by
  constructor
  · intro hmem
    obtain ⟨a, -, -, -, -, -, hgt, -⟩ := mem_checkAlerts_high.mp hmem
    exact lt_irrefl t hgt
  · intro hmem
    obtain ⟨a, -, -, -, -, -, hlt, -⟩ := mem_checkAlerts_low.mp hmem
    exact lt_irrefl t hlt

/-- Witness for C6: price exactly `3000` against a high of `3000`. -/
theorem checkAlerts_strict_thresholds_witness :
    BreachEvent.highBreach "RELIANCE" 3000 3000 ∉
      checkAlerts [⟨"RELIANCE", some 3000, none, 1⟩] "RELIANCE" 3000 :=
  (checkAlerts_strict_thresholds [⟨"RELIANCE", some 3000, none, 1⟩] "RELIANCE" "RELIANCE" 3000).1

/-- C8: `deleteAlert id` keeps exactly the alerts whose id differs from
`id`, as a sublist (relative order and fields untouched); when no stored
alert has that id the persisted sequence is unchanged. -/
theorem deleteAlert_spec (id : Int) (alerts : List StockAlert) :
    (deleteAlert id alerts).Sublist alerts ∧
    (∀ a ∈ deleteAlert id alerts, a ∈ alerts ∧ a.id ≠ id) ∧
    (∀ a ∈ alerts, a.id ≠ id → a ∈ deleteAlert id alerts) ∧
    ((∀ a ∈ alerts, a.id ≠ id) → deleteAlert id alerts = alerts) := by
  unfold deleteAlert
  refine ⟨List.filter_sublist _, ?_, ?_, ?_⟩
  · intro a ha
    rw [List.mem_filter] at ha
    exact ⟨ha.1, by simpa using ha.2⟩
  · intro a ha hne
    rw [List.mem_filter]
    exact ⟨ha, by simpa using hne⟩
  · intro hall
    apply List.filter_eq_self.mpr
    intro a ha
    simpa using hall a ha

/-- Witness for C8: deleting an id no stored alert has leaves the
sequence unchanged. -/
theorem deleteAlert_spec_witness :
    deleteAlert 5 [⟨"A", none, some 4, 1⟩, ⟨"B", some 2, none, 2⟩]
      = [⟨"A", none, some 4, 1⟩, ⟨"B", some 2, none, 2⟩] :=
  (deleteAlert_spec 5 [⟨"A", none, some 4, 1⟩, ⟨"B", some 2, none, 2⟩]).2.2.2 (by decide)

/-- The store only ever persists alerts without a `0` threshold:
`handleAlertSubmit` replaces a falsy threshold by `null`. This justifies
the `storedWF` hypotheses on the evaluator and simulator claims. -/
theorem handleAlertSubmit_stores_wf (symbol : String) (high low : Option ℚ) (i : Int)
    (alerts : List StockAlert) (res : List StockAlert)
    (hres : handleAlertSubmit symbol high low i alerts = some res)
    (hprev : ∀ a ∈ alerts, storedWF a) :
    ∀ a ∈ res, storedWF a := by
  by_cases hcond : numTruthy high = false ∧ numTruthy low = false
  · simp [handleAlertSubmit, hcond] at hres
  · simp only [handleAlertSubmit, if_neg hcond, Option.some.injEq] at hres
    subst hres
    intro a ha
    rcases List.mem_append.mp ha with hmem | hmem
    · exact hprev a hmem
    · obtain rfl := List.mem_singleton.mp hmem
      exact ⟨numOrNull_ne_some_zero high, numOrNull_ne_some_zero low⟩

/-- C2: on a stored sequence, `checkAlerts(symbol, price)` emits a high
breach with threshold `t` exactly when some alert for `symbol` has high
`t` and `price > t`, a low breach with threshold `t` exactly when some
alert for `symbol` has low `t` and `price < t` (so alerts for other
symbols contribute nothing, both can fire in one evaluation, and an alert
with only a high never yields a low breach), and the stored sequence it
leaves behind is the one it read. -/
theorem checkAlerts_emits_exactly (alerts : List StockAlert) (symbol : String) (price : ℚ)
    (hwf : ∀ a ∈ alerts, storedWF a) :
    (∀ sym t, BreachEvent.highBreach sym t price ∈ checkAlerts alerts symbol price ↔
        sym = symbol ∧ (∃ a ∈ alerts, a.symbol = symbol ∧ a.high = some t) ∧ price > t) ∧
    (∀ sym t, BreachEvent.lowBreach sym t price ∈ checkAlerts alerts symbol price ↔
        sym = symbol ∧ (∃ a ∈ alerts, a.symbol = symbol ∧ a.low = some t) ∧ price < t) ∧
    (checkAlertsRun alerts symbol price).1 = alerts := by
  refine ⟨?_, ?_, rfl⟩
  · intro sym t
    rw [mem_checkAlerts_high]
    constructor
    · rintro ⟨a, ha, hsym, rfl, hhigh, -, hpt, -⟩
      exact ⟨rfl, ⟨a, ha, hsym, hhigh⟩, hpt⟩
    · rintro ⟨rfl, ⟨a, ha, hsym, hhigh⟩, hpt⟩
      have ht0 : t ≠ 0 := fun h0 => (hwf a ha).1 (h0 ▸ hhigh)
      exact ⟨a, ha, hsym, rfl, hhigh, ht0, hpt, rfl⟩
  · intro sym t
    rw [mem_checkAlerts_low]
    constructor
    · rintro ⟨a, ha, hsym, rfl, hlow, -, hpt, -⟩
      exact ⟨rfl, ⟨a, ha, hsym, hlow⟩, hpt⟩
    · rintro ⟨rfl, ⟨a, ha, hsym, hlow⟩, hpt⟩
      have ht0 : t ≠ 0 := fun h0 => (hwf a ha).2 (h0 ▸ hlow)
      exact ⟨a, ha, hsym, rfl, hlow, ht0, hpt, rfl⟩

/-- Witness for C2: alert `{symbol: "RELIANCE", high: 3000}` at price
`3050` emits the high-breach event. -/
theorem checkAlerts_emits_exactly_witness :
    BreachEvent.highBreach "RELIANCE" 3000 3050 ∈
      checkAlerts [⟨"RELIANCE", some 3000, none, 1⟩] "RELIANCE" 3050 :=
  ((checkAlerts_emits_exactly [⟨"RELIANCE", some 3000, none, 1⟩] "RELIANCE" 3050
      (by decide)).1 "RELIANCE" 3000).mpr
    ⟨rfl, ⟨⟨"RELIANCE", some 3000, none, 1⟩, by simp, rfl, rfl⟩, by norm_num⟩

/-- C9: the persisted-sequence invariant that one threshold is non-null is
preserved by every store operation: a submission with neither threshold
set is rejected, an accepted submission appends an alert with a non-null
threshold, and deletion only removes entries. -/
theorem store_preserves_alertInv :
    (∀ symbol high low i alerts, numTruthy high = false → numTruthy low = false →
        handleAlertSubmit symbol high low i alerts = none) ∧
    (∀ symbol high low i alerts res,
        handleAlertSubmit symbol high low i alerts = some res →
        (∀ a ∈ alerts, alertInv a) → ∀ a ∈ res, alertInv a) ∧
    (∀ i alerts, (∀ a ∈ alerts, alertInv a) → ∀ a ∈ deleteAlert i alerts, alertInv a) := by
  refine ⟨?_, ?_, ?_⟩
  · intro symbol high low i alerts hh hl
    simp [handleAlertSubmit, hh, hl]
  · intro symbol high low i alerts res hres hinv a ha
    by_cases hcond : numTruthy high = false ∧ numTruthy low = false
    · simp [handleAlertSubmit, hcond] at hres
    · simp only [handleAlertSubmit, if_neg hcond, Option.some.injEq] at hres
      subst hres
      rcases List.mem_append.mp ha with hmem | hmem
      · exact hinv a hmem
      · obtain rfl := List.mem_singleton.mp hmem
        rcases not_and_or.mp hcond with hh | hl
        · simp only [Bool.not_eq_false] at hh
          exact Or.inl (numOrNull_ne_none hh)
        · simp only [Bool.not_eq_false] at hl
          exact Or.inr (numOrNull_ne_none hl)
  · intro i alerts hinv a ha
    exact hinv a (List.mem_filter.mp ha).1

/-- Witness for C9: a submission with a `0` high and an empty low is
rejected, and the invariant carries over an accepted submission plus a
deletion on a concrete store. -/
theorem store_preserves_alertInv_witness :
    handleAlertSubmit "A" (some 0) none 1 [] = none ∧
    (∀ a ∈ deleteAlert 1 [⟨"A", none, some 4, 1⟩], alertInv a) :=
  ⟨store_preserves_alertInv.1 "A" (some 0) none 1 [] (by decide) (by decide),
    store_preserves_alertInv.2.2 1 [⟨"A", none, some 4, 1⟩] (by decide)⟩

/-- C10: a `0` threshold behaves as unset everywhere: `handleAlertSubmit`
stores a submitted `0` high as `null` (and is rejected when the low is
also falsy), the reference-price selection skips a `0` high and falls
through to the low or the `3000` default, and `checkAlerts` never emits a
breach event whose threshold is `0`, at any price. -/
theorem zero_threshold_unset :
    (∀ symbol low i alerts,
        handleAlertSubmit symbol (some 0) low i alerts =
          (if numTruthy low then some (alerts ++ [⟨symbol, none, low, i⟩]) else none)) ∧
    (∀ a : StockAlert, a.high = some 0 → basePrice a = jsNumOr a.low 3000) ∧
    (∀ alerts symbol price sym,
        BreachEvent.highBreach sym 0 price ∉ checkAlerts alerts symbol price ∧
        BreachEvent.lowBreach sym 0 price ∉ checkAlerts alerts symbol price) := by
  refine ⟨?_, ?_, ?_⟩
  · intro symbol low i alerts
    have h0 : numTruthy (some 0) = false := by decide
    cases hl : numTruthy low with
    | false => simp [handleAlertSubmit, h0, hl]
    | true => simp [handleAlertSubmit, h0, hl, numOrNull, numOrNull_of_truthy hl]
  · intro a ha
    simp [basePrice, jsNumOr, ha]
  · intro alerts symbol price sym
    constructor
    · intro hmem
      obtain ⟨a, -, -, -, -, ht0, -, -⟩ := mem_checkAlerts_high.mp hmem
      exact ht0 rfl
    · intro hmem
      obtain ⟨a, -, -, -, -, ht0, -, -⟩ := mem_checkAlerts_low.mp hmem
      exact ht0 rfl

/-- Witness for C10: a submission with high `0` and low `4` persists
`{high: null, low: 4}`, and the simulator of an alert with high `0`
falls through to its low. -/
theorem zero_threshold_unset_witness :
    handleAlertSubmit "A" (some 0) (some 4) 1 [] =
      (if numTruthy (some 4) then some ([] ++ [⟨"A", none, some 4, 1⟩]) else none) ∧
    basePrice ⟨"A", some 0, some 4, 1⟩ = jsNumOr (some 4) 3000 :=
  ⟨zero_threshold_unset.1 "A" (some 4) 1 [],
    zero_threshold_unset.2.1 ⟨"A", some 0, some 4, 1⟩ rfl⟩

/-- C3 (counterexample): the claim quantifies over every message string,
but the dedup check `lastNotif && lastNotif === message` treats a cached
empty string as falsy: dispatching `""` twice while the cache holds `""`
from the first call shows two local notifications and issues two remote
requests instead of one. -/
theorem notifyUser_empty_message_not_deduped :
    (notifyUser true "" initialNotifyState).cache = some "" ∧
    (notifyUser true "" (notifyUser true "" initialNotifyState)).remoteRequests = ["", ""] ∧
    (notifyUser true "" (notifyUser true "" initialNotifyState)).localNotifs = ["", ""] :=
  ⟨rfl, rfl, rfl⟩

/-- C3 (amended): for every non-empty message `m`, dispatching `m` twice
while the cache still holds `m` from the first call produces exactly one
local notification and one remote request — the second call is a no-op
that leaves the whole state, cache included, unchanged; after the
30-second cache expiry, or for a different second message, the second
dispatch proceeds with its own notification and request. -/
theorem dispatch_dedup_window (m m2 : String) (s : NotifyState)
    (hm : m ≠ "") (hne : m2 ≠ m) (hdup : isDuplicate s.cache m = false) :
    notifyUser true m (notifyUser true m s) = notifyUser true m s ∧
    (notifyUser true m s).cache = some m ∧
    (notifyUser true m s).localNotifs = s.localNotifs ++ [m] ∧
    (notifyUser true m s).remoteRequests = s.remoteRequests ++ [m] ∧
    (notifyUser true m (expireCache (notifyUser true m s))).remoteRequests
      = (notifyUser true m s).remoteRequests ++ [m] ∧
    (notifyUser true m (expireCache (notifyUser true m s))).localNotifs
      = (notifyUser true m s).localNotifs ++ [m] ∧
    (notifyUser true m2 (notifyUser true m s)).remoteRequests
      = (notifyUser true m s).remoteRequests ++ [m2] ∧
    (notifyUser true m2 (notifyUser true m s)).localNotifs
      = (notifyUser true m s).localNotifs ++ [m2] := by
  have h1 : notifyUser true m s =
      { cache := some m, localNotifs := s.localNotifs ++ [m],
        remoteRequests := s.remoteRequests ++ [m], log := s.log ++ ["ALERT: " ++ m] } := by
    simp [notifyUser, hdup]
  have hdup2 : isDuplicate (some m) m = true := by
    simp [isDuplicate, hm]
  have hdup3 : isDuplicate (some m) m2 = false := by
    simp [isDuplicate, Ne.symm hne]
  rw [h1]
  refine ⟨?_, rfl, rfl, rfl, ?_, ?_, ?_, ?_⟩
  · simp [notifyUser, hdup2]
  · simp [notifyUser, expireCache, isDuplicate]
  · simp [notifyUser, expireCache, isDuplicate]
  · simp [notifyUser, hdup3]
  · simp [notifyUser, hdup3]

/-- Witness for C3: messages `"a"` then `"a"` dedupe to one request; the
cleared-cache and distinct-message paths proceed. -/
theorem dispatch_dedup_window_witness :
    notifyUser true "a" (notifyUser true "a" initialNotifyState)
      = notifyUser true "a" initialNotifyState ∧
    (notifyUser true "a" initialNotifyState).remoteRequests
      = initialNotifyState.remoteRequests ++ ["a"] := by
  have h := dispatch_dedup_window "a" "b" initialNotifyState (by decide) (by decide) (by decide)
  exact ⟨h.1, h.2.2.2.1⟩

/-- C7: a failed remote dispatch — network error or `{success: false}`
response — only appends a console-log entry: the handler is total (no
exception escapes), issues no retry, and leaves the cache (still the
message), the shown local notification and the single issued remote
request untouched. -/
theorem dispatch_failure_isolated (granted : Bool) (m : String) (s : NotifyState)
    (resp : Except String TriggerResponse)
    (hdup : isDuplicate s.cache m = false)
    (hfail : (∃ e, resp = Except.error e) ∨ ∃ d, resp = Except.ok d ∧ d.success = false) :
    (handleTriggerResponse resp (notifyUser granted m s)).cache = some m ∧
    (handleTriggerResponse resp (notifyUser granted m s)).localNotifs
      = (notifyUser granted m s).localNotifs ∧
    (granted = true → (notifyUser granted m s).localNotifs = s.localNotifs ++ [m]) ∧
    (handleTriggerResponse resp (notifyUser granted m s)).remoteRequests
      = s.remoteRequests ++ [m] ∧
    ∃ entry, (handleTriggerResponse resp (notifyUser granted m s)).log
      = (notifyUser granted m s).log ++ [entry] := by
  have h1 : notifyUser granted m s =
      { cache := some m, localNotifs := s.localNotifs ++ (if granted then [m] else []),
        remoteRequests := s.remoteRequests ++ [m], log := s.log ++ ["ALERT: " ++ m] } := by
    simp [notifyUser, hdup]
  rcases hfail with ⟨e, rfl⟩ | ⟨d, rfl, hsucc⟩
  · rw [h1]
    refine ⟨rfl, rfl, fun hg => by simp [hg], rfl, "Backend trigger error: " ++ e, rfl⟩
  · rw [h1]
    have h2 : ∀ st : NotifyState, handleTriggerResponse (Except.ok d) st
        = { st with log := st.log ++ ["Backend trigger failed: " ++ d.error.getD ""] } := by
      intro st
      simp [handleTriggerResponse, hsucc]
    rw [h2]
    exact ⟨rfl, rfl, fun hg => by simp [hg], rfl,
      ⟨"Backend trigger failed: " ++ d.error.getD "", rfl⟩⟩

/-- Witness for C7: the spec's example — the backend answers
`{success: false, error: "Twilio credentials not configured"}`; the
request was issued once and the local notification is unaffected. -/
theorem dispatch_failure_isolated_witness :
    (handleTriggerResponse (Except.ok ⟨false, none, some "Twilio credentials not configured"⟩)
        (notifyUser true "a" initialNotifyState)).remoteRequests
      = initialNotifyState.remoteRequests ++ ["a"] ∧
    (handleTriggerResponse (Except.ok ⟨false, none, some "Twilio credentials not configured"⟩)
        (notifyUser true "a" initialNotifyState)).localNotifs
      = (notifyUser true "a" initialNotifyState).localNotifs := by
  have h := dispatch_failure_isolated true "a" initialNotifyState
    (Except.ok ⟨false, none, some "Twilio credentials not configured"⟩) (by decide)
    (Or.inr ⟨⟨false, none, some "Twilio credentials not configured"⟩, rfl, rfl⟩)
  exact ⟨h.2.2.2.1, h.2.1⟩

end StockVision
